import Mathlib

/-!
Verification of `aper`'s `src/aper/src/state_program.rs`.

Shallow embedding conventions: Rust's in-place mutation (`&mut self`) is
modelled as explicit state passing, so `apply` is a pure function
`state → transition → state`, and a factory's `create(&mut self)` returns
the (possibly updated) factory together with the created state.  Trait
objects become Lean structures bundling the trait's methods; an impl of a
trait for a concrete type is a value of that structure.
-/

/-- Modelled from the spec: `TransitionEvent<T>` (defined outside the provided
source file) wraps exactly one `Transition` value plus an originator field,
either `some player` for an event caused by a specific external actor or
`none` for an event synthesized by the state machine itself.  `P` is the
(externally defined, opaque) player-identifier type. -/
structure TransitionEvent (P T : Type) where
  transition : T
  originator : Option P
deriving DecidableEq, Repr

/-- Modelled from the spec: the `StateMachine` trait (defined outside the
provided source file): a state type `σ` that can apply a transition of type
`τ` to itself, mutating in place, with no other observable effects; the
application is a pure, deterministic, total function. -/
structure StateMachine (σ τ : Type) where
  apply : σ → τ → σ

/-- The `StateProgram` trait of `state_program.rs`: a `StateMachine` whose
transition type is `TransitionEvent<Self::T>`, plus the `suspended_event`
query used for server-side self-scheduling. -/
structure StateProgram (P σ τ : Type) where
  machine : StateMachine σ (TransitionEvent P τ)
  suspended_event : σ → Option (TransitionEvent P τ)

/-- The default implementation of `StateProgram::suspended_event`
(`state_program.rs` lines 31–33): it always returns `None`. -/
def defaultSuspendedEvent (P σ τ : Type) : σ → Option (TransitionEvent P τ) :=
  fun _ => none

/-- `StateMachineContainerProgram<SM>` (`state_program.rs` line 48): a tuple
struct holding one inner `SM` state. -/
structure StateMachineContainerProgram (σ : Type) where
  inner : σ
deriving DecidableEq, Repr

/-- `impl StateMachine for StateMachineContainerProgram` (`state_program.rs`
lines 50–56): `apply` forwards `transition.transition` to the inner
machine's `apply`, discarding the originator metadata. -/
def StateMachineContainerProgram.apply {P σ τ : Type} (SM : StateMachine σ τ)
    (c : StateMachineContainerProgram σ) (transition : TransitionEvent P τ) :
    StateMachineContainerProgram σ :=
  ⟨SM.apply c.inner transition.transition⟩

/-- `impl StateProgram for StateMachineContainerProgram` (`state_program.rs`
lines 58–60): the container is a `StateProgram` whose `apply` is the
forwarding apply above and whose `suspended_event` is the trait default. -/
def StateMachineContainerProgram.asStateProgram {σ τ : Type} (P : Type)
    (SM : StateMachine σ τ) : StateProgram P (StateMachineContainerProgram σ) τ :=
  { machine := ⟨fun c e => StateMachineContainerProgram.apply SM c e⟩
  , suspended_event := defaultSuspendedEvent P (StateMachineContainerProgram σ) τ }

/-- `StateMachineContainerProgramFactory<S>` (`state_program.rs` lines
62–64): it holds only `PhantomData<S>` — no runtime state. -/
structure StateMachineContainerProgramFactory (σ : Type) where

/-- `StateMachineContainerProgramFactory::create` (`state_program.rs` lines
77–79): builds `StateMachineContainerProgram(S::default())`; the Rust
`Default` instance of `S` is passed explicitly as `d`.  The `&mut self`
receiver is modelled by returning the factory alongside the result; the
body never touches `self`, so the factory comes back unchanged. -/
def StateMachineContainerProgramFactory.create {σ : Type} (d : σ)
    (f : StateMachineContainerProgramFactory σ) :
    StateMachineContainerProgramFactory σ × StateMachineContainerProgram σ :=
  (f, ⟨d⟩)

/-- `DefaultStateProgramFactory<S>` (`state_program.rs` lines 82–84): it
holds only `PhantomData<S>` — no runtime state. -/
structure DefaultStateProgramFactory (σ : Type) where

/-- `DefaultStateProgramFactory::create` (`state_program.rs` lines 98–100):
returns `S::default()` unchanged; the `Default` instance of `S` is passed
explicitly as `d`.  As above, the `&mut self` receiver is modelled by
returning the untouched factory alongside the result. -/
def DefaultStateProgramFactory.create {σ : Type} (d : σ)
    (f : DefaultStateProgramFactory σ) : DefaultStateProgramFactory σ × σ :=
  (f, d)

/-- Folding a list of transition events through the container's `apply`,
left to right: the driver applying an ordered event stream. -/
def applyEvents {P σ τ : Type} (SM : StateMachine σ τ)
    (c : StateMachineContainerProgram σ) (es : List (TransitionEvent P τ)) :
    StateMachineContainerProgram σ :=
  es.foldl (StateMachineContainerProgram.apply SM) c

/-- Applying a list of consecutive sub-sequences of transition events, each
in turn, left to right. -/
def applyChunks {P σ τ : Type} (SM : StateMachine σ τ)
    (c : StateMachineContainerProgram σ)
    (chunks : List (List (TransitionEvent P τ))) :
    StateMachineContainerProgram σ :=
  chunks.foldl (applyEvents SM) c

/-- Calling `suspended_event` twice in a row with no intervening `apply`:
since the Rust method takes `&self`, the state is read twice and never
written; the triple returned is (state after the two calls, first answer,
second answer). -/
def suspendedEventTwice {P σ τ : Type} (sp : StateProgram P σ τ) (s : σ) :
    σ × Option (TransitionEvent P τ) × Option (TransitionEvent P τ) :=
  (s, sp.suspended_event s, sp.suspended_event s)

/-- The number of suspended events a `StateProgram` currently declares live:
the length of the `Option` answer viewed as a list. -/
def activeSuspendedCount {P σ τ : Type} (sp : StateProgram P σ τ) (s : σ) :
    Nat :=
  (sp.suspended_event s).toList.length

/-- A concrete counter state machine over `Nat`, used to instantiate
witnesses: applying transition `t` adds it to the state. -/
def counterMachine : StateMachine Nat Nat :=
  ⟨fun s t => s + t⟩

/-- Appending two event lists and applying them equals applying the first,
then the second from the intermediate state. -/
theorem applyEvents_append {P σ τ : Type} (SM : StateMachine σ τ)
    (c : StateMachineContainerProgram σ) (l₁ l₂ : List (TransitionEvent P τ)) :
    applyEvents SM c (l₁ ++ l₂) = applyEvents SM (applyEvents SM c l₁) l₂ := by
  simp [applyEvents, List.foldl_append]

/-- Applying a list of consecutive chunks one after another equals applying
their concatenation all at once, from any starting container state. -/
theorem applyChunks_eq_flatten {P σ τ : Type} (SM : StateMachine σ τ)
    (chunks : List (List (TransitionEvent P τ))) :
    ∀ c, applyChunks SM c chunks = applyEvents SM c chunks.flatten := by
  induction chunks with
  | nil => intro c; rfl
  | cons hd tl ih =>
    intro c
    have h1 : applyChunks SM c (hd :: tl) =
        applyChunks SM (applyEvents SM c hd) tl := rfl
    have h2 : (hd :: tl).flatten = hd ++ tl.flatten := rfl
    rw [h1, ih, h2, applyEvents_append]

/-- Claim C1: Adapter transparency — for every plain StateMachine `SM`, every
state `s`, every transition `t` and every originator `o`, applying the event
with transition `t` and originator `o` to the container wrapping `s` yields a
container whose inner component equals applying `t` directly to `s` via
`SM.apply`. -/
theorem adapter_transparency {P σ τ : Type} (SM : StateMachine σ τ)
    (s : σ) (t : τ) (o : Option P) :
    (StateMachineContainerProgram.apply SM ⟨s⟩ ⟨t, o⟩).inner = SM.apply s t :=
  rfl

/-- Claim C2: Default no-suspension — the default `suspended_event`
implementation, and hence the container program's `suspended_event`, returns
`none` for every state. -/
theorem default_no_suspension :
    (∀ (P σ τ : Type) (s : σ), defaultSuspendedEvent P σ τ s = none) ∧
      ∀ (P σ τ : Type) (SM : StateMachine σ τ)
        (c : StateMachineContainerProgram σ),
        (StateMachineContainerProgram.asStateProgram P SM).suspended_event c
          = none :=
  ⟨fun _ _ _ _ => rfl, fun _ _ _ _ _ => rfl⟩

/-- Claim C3: Originator noninterference — applying events carrying the same
transition but arbitrary (possibly different) originators to equal container
states yields equal container states: `apply` never interprets the
originator field. -/
theorem originator_noninterference {P σ τ : Type} (SM : StateMachine σ τ)
    (c₁ c₂ : StateMachineContainerProgram σ) (h : c₁ = c₂)
    (t : τ) (o₁ o₂ : Option P) :
    StateMachineContainerProgram.apply SM c₁ ⟨t, o₁⟩ =
      StateMachineContainerProgram.apply SM c₂ ⟨t, o₂⟩ := by
  subst h
  rfl

/-- Witness for C3 at the concrete counter machine: state 3, transition 5,
originators `some 1` versus `none`. -/
theorem originator_noninterference_witness :
    (⟨3⟩ : StateMachineContainerProgram Nat) = ⟨3⟩ ∧
      StateMachineContainerProgram.apply counterMachine ⟨3⟩
          (⟨5, some 1⟩ : TransitionEvent Nat Nat) =
        StateMachineContainerProgram.apply counterMachine ⟨3⟩
          (⟨5, none⟩ : TransitionEvent Nat Nat) :=
  ⟨rfl, originator_noninterference counterMachine ⟨3⟩ ⟨3⟩ rfl 5 (some 1) none⟩

/-- Claim C4: Determinism of apply — since each StateMachine's `apply` is a
function, applying the same transition event to two equal container states
yields equal resulting container states. -/
theorem apply_deterministic {P σ τ : Type} (SM : StateMachine σ τ)
    (e : TransitionEvent P τ) (c₁ c₂ : StateMachineContainerProgram σ)
    (h : c₁ = c₂) :
    StateMachineContainerProgram.apply SM c₁ e =
      StateMachineContainerProgram.apply SM c₂ e := by
  subst h
  rfl

/-- Witness for C4 at the concrete counter machine: state 7, event with
transition 2 and originator `some 0`, applied to two equal states. -/
theorem apply_deterministic_witness :
    (⟨7⟩ : StateMachineContainerProgram Nat) = ⟨7⟩ ∧
      StateMachineContainerProgram.apply counterMachine ⟨7⟩
          (⟨2, some 0⟩ : TransitionEvent Nat Nat) =
        StateMachineContainerProgram.apply counterMachine ⟨7⟩ ⟨2, some 0⟩ :=
  ⟨rfl, apply_deterministic counterMachine ⟨2, some 0⟩ ⟨7⟩ ⟨7⟩ rfl⟩

/-- Claim C5: Replay equivalence — applying an ordered event sequence to a
freshly created container instance yields the same final state whether the
events are applied all at once (the concatenation `chunks.flatten`) or in any
partition into consecutive sub-sequences (`chunks`) preserving their order. -/
theorem replay_equivalence {P σ τ : Type} (SM : StateMachine σ τ) (d : σ)
    (chunks : List (List (TransitionEvent P τ))) :
    applyChunks SM (StateMachineContainerProgramFactory.create d ⟨⟩).2 chunks =
      applyEvents SM (StateMachineContainerProgramFactory.create d ⟨⟩).2
        chunks.flatten :=
  applyChunks_eq_flatten SM chunks _

/-- Claim C6: Idempotent pure query — calling `suspended_event` twice in a
row with no intervening `apply` returns the same answer both times and
leaves the state unchanged, for every StateProgram; for the container
program both answers are `none`. -/
theorem suspended_event_idempotent :
    (∀ (P σ τ : Type) (sp : StateProgram P σ τ) (s : σ),
        (suspendedEventTwice sp s).2.1 = (suspendedEventTwice sp s).2.2 ∧
          (suspendedEventTwice sp s).1 = s) ∧
      ∀ (P σ τ : Type) (SM : StateMachine σ τ)
        (c : StateMachineContainerProgram σ),
        (suspendedEventTwice
            (StateMachineContainerProgram.asStateProgram P SM) c).2.1 = none :=
  ⟨fun _ _ _ _ _ => ⟨rfl, rfl⟩, fun _ _ _ _ _ => rfl⟩

/-- Claim C7: Single-slot invariant — at every state of every StateProgram,
the suspended-event answer holds at most one event; for the container
program (default implementation) the slot is always empty. -/
theorem single_slot_invariant :
    (∀ (P σ τ : Type) (sp : StateProgram P σ τ) (s : σ),
        activeSuspendedCount sp s ≤ 1) ∧
      ∀ (P σ τ : Type) (SM : StateMachine σ τ)
        (c : StateMachineContainerProgram σ),
        activeSuspendedCount
          (StateMachineContainerProgram.asStateProgram P SM) c = 0 := by
  constructor
  · intro P σ τ sp s
    unfold activeSuspendedCount
    cases sp.suspended_event s <;> simp
  · intro P σ τ SM c
    rfl

/-- Claim C8: Factory correctness and infallibility — both `create` methods
are total functions; the container factory returns the container wrapping
the default state, and the default-state-program factory returns the
default state unchanged. -/
theorem factory_create_correct :
    (∀ (σ : Type) (d : σ) (f : StateMachineContainerProgramFactory σ),
        (StateMachineContainerProgramFactory.create d f).2 =
          StateMachineContainerProgram.mk d) ∧
      ∀ (σ : Type) (d : σ) (f : DefaultStateProgramFactory σ),
        (DefaultStateProgramFactory.create d f).2 = d :=
  ⟨fun _ _ _ => rfl, fun _ _ _ => rfl⟩

/-- Claim C9: Apply is infallible — for every input the container's `apply`
is defined and returns a unique resulting state, with no failure branch;
the outcome is exactly what the inner machine's `apply` defines. -/
theorem apply_infallible {P σ τ : Type} (SM : StateMachine σ τ)
    (c : StateMachineContainerProgram σ) (e : TransitionEvent P τ) :
    ∃ r, StateMachineContainerProgram.apply SM c e = r ∧
      r.inner = SM.apply c.inner e.transition :=
  ⟨_, rfl, rfl⟩

/-- Claim C10: Factories are stateless — each `create` returns the factory
unchanged, any two `create` calls on the same or different factory
instances of the same type produce equal states, and that state is the
default-constructed one. -/
theorem factories_stateless :
    (∀ (σ : Type) (d : σ) (f f₁ f₂ : StateMachineContainerProgramFactory σ),
        (StateMachineContainerProgramFactory.create d f).1 = f ∧
          (StateMachineContainerProgramFactory.create d f₁).2 =
            (StateMachineContainerProgramFactory.create d f₂).2 ∧
          (StateMachineContainerProgramFactory.create d f).2 =
            StateMachineContainerProgram.mk d) ∧
      ∀ (σ : Type) (d : σ) (f f₁ f₂ : DefaultStateProgramFactory σ),
        (DefaultStateProgramFactory.create d f).1 = f ∧
          (DefaultStateProgramFactory.create d f₁).2 =
            (DefaultStateProgramFactory.create d f₂).2 ∧
          (DefaultStateProgramFactory.create d f).2 = d :=
  ⟨fun _ _ _ _ _ => ⟨rfl, rfl, rfl⟩, fun _ _ _ _ _ => ⟨rfl, rfl, rfl⟩⟩
